import Mathlib

/-!
Formal model of spea-PolicyLint (src/main.py).

The tool loads a policy document (YAML or JSON) and a JSON schema document,
validates the policy against the schema by delegating to the external
jsonschema library, and maps every outcome to a printed message and a
process exit code.

The embedding models files by what the two external parsers produce on
their text, the filesystem as a partial map from paths to files, and the
external conformance engine as a function parameter (with one concrete
engine, modelled from the specification, used for concrete examples).
-/

namespace PolicyLint

/-- JSON/YAML document values: scalars, sequences, string-keyed mappings. -/
inductive Value where
  | null
  | bool (b : Bool)
  | num (n : Int)
  | str (s : String)
  | arr (elems : List Value)
  | dict (entries : List (String × Value))

/-- Python isinstance(v, dict): true exactly on mapping-rooted values. -/
def Value.isDict : Value → Bool
  | .dict _ => true
  | _ => false

/-- The exception categories raised by src/main.py and the libraries it
calls.  In Python, json.JSONDecodeError is a subclass of ValueError; the
model keeps the categories disjoint and encodes the subclass relation in
renderOutcome, where the handler order of main decides the message. -/
inductive PyError where
  | fileNotFound
  | valueError (msg : String)
  | yamlError
  | jsonDecodeError
  | validationError (msg : String)
  | otherError (msg : String)
deriving DecidableEq, Repr

/-- A file on disk, abstracted by what the two external parsers do on its
text: yaml.safe_load and json.load each either return a document value or
raise their parse error. -/
structure File where
  yamlParse : Except Unit Value
  jsonParse : Except Unit Value

/-- The filesystem seen by open(): a path either holds a file or is absent. -/
def FS : Type := String → Option File

/-- Whether an abstract parse succeeded. -/
def parseOk : Except Unit Value → Bool
  | .ok _ => true
  | .error _ => false

/-- src/main.py lines 72-85, the format dispatch inside load_policy:
yaml.safe_load for yaml (yaml.YAMLError on malformed input), json.load
for json (json.JSONDecodeError on malformed input), and for any other
format the ValueError whose source message reads
"Invalid format. Must be 'yaml' or 'json'." (quotes omitted here). -/
def parseByFormat (f : File) (format : String) : Except PyError Value :=
  if format = "yaml" then
    match f.yamlParse with
    | .ok v => .ok v
    | .error _ => .error .yamlError
  else if format = "json" then
    match f.jsonParse with
    | .ok v => .ok v
    | .error _ => .error .jsonDecodeError
  else
    .error (.valueError "Invalid format. Must be yaml or json.")

/-- src/main.py lines 53-97, load_policy: open the file (FileNotFoundError
when absent), parse according to format, then require a dict at the root
(ValueError otherwise).  The except clauses at the end of the function
only log and re-raise, so propagation is unchanged. -/
def load_policy (fs : FS) (policy_file : String) (format : String) :
    Except PyError Value :=
  match fs policy_file with
  | none => .error .fileNotFound
  | some f =>
    match parseByFormat f format with
    | .error e => .error e
    | .ok policy =>
      if policy.isDict then .ok policy
      else .error (.valueError "Policy file must contain a dictionary.")

/-- src/main.py lines 100-127, load_schema: open the file (FileNotFoundError
when absent), parse as JSON (json.JSONDecodeError on malformed input).
There is no root-shape check.  The except clauses only log and re-raise. -/
def load_schema (fs : FS) (schema_file : String) : Except PyError Value :=
  match fs schema_file with
  | none => .error .fileNotFound
  | some f =>
    match f.jsonParse with
    | .ok v => .ok v
    | .error _ => .error .jsonDecodeError

/-- The external jsonschema.validate capability: checks an instance against
a schema, returning unit on conformance and an exception otherwise
(validationError for conformance failures, otherError for anything else,
such as jsonschema.SchemaError on an invalid schema). -/
def Engine : Type := Value → Value → Except PyError Unit

/-- src/main.py lines 130-149, validate_policy: delegate to the external
jsonschema.validate; the except clause catches only ValidationError and
re-raises it after logging, so every error propagates unchanged. -/
def validate_policy (engine : Engine) (policy schema : Value) :
    Except PyError Unit :=
  match engine policy schema with
  | .ok _ => .ok ()
  | .error e => .error e

/-- The command-line arguments after argparse (src/main.py lines 23-50).
argparse restricts format to the choices yaml and json. -/
structure Args where
  policy_file : String
  schema_file : String
  format : String
  log_level : String

/-- The three orchestrated calls of main, for the sequencing claims. -/
inductive Step where
  | loadPolicy
  | loadSchema
  | validate
deriving DecidableEq, Repr

/-- src/main.py lines 161-164: the try block of main runs load_policy,
load_schema, validate_policy in that order, stopping at the first raised
exception.  The second component records which calls were made. -/
def mainRun (fs : FS) (engine : Engine) (args : Args) :
    Except PyError Unit × List Step :=
  match load_policy fs args.policy_file args.format with
  | .error e => (.error e, [.loadPolicy])
  | .ok policy =>
    match load_schema fs args.schema_file with
    | .error e => (.error e, [.loadPolicy, .loadSchema])
    | .ok schema =>
      match validate_policy engine policy schema with
      | .error e => (.error e, [.loadPolicy, .loadSchema, .validate])
      | .ok _ => (.ok (), [.loadPolicy, .loadSchema, .validate])

/-- src/main.py lines 165-185: the printed line and the exit code for each
outcome of the try block.  Python tries the except clauses in order:
FileNotFoundError, ValueError, yaml.YAMLError, json.JSONDecodeError,
ValidationError, Exception.  Because json.JSONDecodeError subclasses
ValueError, a JSON parse error is caught by the ValueError clause and the
json.JSONDecodeError clause at line 176 is unreachable. -/
def renderOutcome : Except PyError Unit → String × Nat
  | .ok _ => ("Policy validation successful.", 0)
  | .error .fileNotFound =>
      ("One or more required files were not found.  See logs for details.", 1)
  | .error (.valueError _) =>
      ("Invalid input provided.  See logs for details.", 1)
  | .error .yamlError =>
      ("Error parsing YAML. See logs for details.", 1)
  | .error .jsonDecodeError =>
      ("Invalid input provided.  See logs for details.", 1)
  | .error (.validationError _) =>
      ("Policy validation failed. See logs for details.", 1)
  | .error (.otherError _) =>
      ("An unexpected error occurred.  See logs for details.", 1)

/-- src/main.py lines 152-185, main after argument parsing: run the three
steps and map the outcome to the printed line and the exit code. -/
def main (fs : FS) (engine : Engine) (args : Args) : String × Nat :=
  renderOutcome (mainRun fs engine args).1

/-- First binding of a key in a mapping, as Python dict lookup on the
parsed association list. -/
def lookupKey : List (String × Value) → String → Option Value
  | [], _ => none
  | (k, v) :: rest, key => if k = key then some v else lookupKey rest key

/-- Modelled from the spec: the type vocabulary of the external JSON Schema
engine (spec section 6: type checks for objects, arrays, strings, numbers,
booleans, null). -/
def typeMatches (t : String) : Value → Bool
  | .dict _ => t = "object"
  | .arr _ => t = "array"
  | .str _ => t = "string"
  | .num _ => t = "number" || t = "integer"
  | .bool _ => t = "boolean"
  | .null => t = "null"

/-- Modelled from the spec: the required-properties rule of the external
JSON Schema engine; each listed name must be a key of the instance
mapping. -/
def checkRequired (entries : List (String × Value)) :
    List Value → Except String Unit
  | [] => .ok ()
  | .str r :: rest =>
    if (lookupKey entries r).isSome then checkRequired entries rest
    else .error ("missing required property: " ++ r)
  | _ :: rest => checkRequired entries rest

/-- Modelled from the spec: the external JSON Schema conformance engine
(spec sections 4.3 and 6), restricted to the vocabulary the spec
exercises: the type keyword, the required keyword, and recursive checks
of the properties keyword on nested objects.  The recursion is bounded by
a fuel argument; exhausting it reports an error. -/
def conforms : Nat → Value → Value → Except String Unit
  | 0, _, _ => .error "maximum schema nesting depth exceeded"
  | fuel + 1, schema, inst =>
    match schema with
    | .dict kvs =>
      (match lookupKey kvs "type" with
       | some (.str t) =>
         if typeMatches t inst then Except.ok ()
         else .error ("instance is not of type " ++ t)
       | _ => Except.ok ()).bind fun _ =>
      (match lookupKey kvs "required", inst with
       | some (.arr reqs), .dict entries => checkRequired entries reqs
       | _, _ => Except.ok ()).bind fun _ =>
      (match lookupKey kvs "properties", inst with
       | some (.dict props), .dict entries =>
         props.foldl
           (fun acc (kv : String × Value) =>
             acc.bind fun _ =>
               match lookupKey entries kv.1 with
               | some v => conforms fuel kv.2 v
               | none => Except.ok ())
           (Except.ok ())
       | _, _ => Except.ok ())
    | _ => Except.ok ()

/-- Modelled from the spec: jsonschema.validate as an Engine, turning a
conformance diagnostic into a ValidationError. -/
def jsonschemaValidate : Engine := fun policy schema =>
  match conforms 1000 schema policy with
  | .ok _ => .ok ()
  | .error msg => .error (.validationError msg)

/-- Modelled from the spec: the output of the external JSON or YAML
serializer on a document value (spec sections 6 and 8): serializing a
value yields a file whose text parses back to that same value in either
format. -/
def serializeFile (v : Value) : File :=
  { yamlParse := .ok v, jsonParse := .ok v }

/-- Writing a file at a path. -/
def updateFS (fs : FS) (path : String) (f : File) : FS :=
  fun q => if q = path then some f else fs q

/-! Concrete documents and filesystems used by the examples and witnesses. -/

/-- The example schema of the spec: object with required name of type
string. -/
def schemaName : Value :=
  .dict
    [("type", .str "object"),
     ("required", .arr [.str "name"]),
     ("properties", .dict [("name", .dict [("type", .str "string")])])]

/-- The conforming example policy. -/
def policyAlice : Value := .dict [("name", .str "alice")]

/-- The non-conforming example policy, missing the required name key. -/
def policyAge : Value := .dict [("age", .num 5)]

/-- The empty filesystem. -/
def fsEmpty : FS := fun _ => none

/-- A file whose text parses to the same value in both formats. -/
def fileBoth (v : Value) : File := { yamlParse := .ok v, jsonParse := .ok v }

/-- A file whose text neither parser accepts. -/
def fileBroken : File := { yamlParse := .error (), jsonParse := .error () }

/-- A file holding an empty YAML document: yaml.safe_load returns None,
and the empty text is not valid JSON. -/
def fileEmptyYaml : File := { yamlParse := .ok .null, jsonParse := .error () }

/-- A one-file filesystem holding the conforming policy at policy.yaml. -/
def fsGood : FS :=
  updateFS (updateFS fsEmpty "schema.json" (fileBoth schemaName))
    "policy.yaml" (fileBoth policyAlice)

/-- A filesystem whose policy file is fine but whose schema file holds
malformed JSON. -/
def fsBadSchema : FS :=
  updateFS (updateFS fsEmpty "schema.json" fileBroken)
    "policy.yaml" (fileBoth policyAlice)

/-- The standard argument vector for the examples. -/
def argsYaml : Args :=
  { policy_file := "policy.yaml", schema_file := "schema.json",
    format := "yaml", log_level := "INFO" }

/-- A filesystem whose policy file is an empty YAML document. -/
def fsEmptyDoc : FS :=
  updateFS (updateFS fsEmpty "schema.json" (fileBoth schemaName))
    "empty.yaml" fileEmptyYaml

/-- An engine that raises a non-ValidationError exception, as
jsonschema.validate does with a SchemaError on an invalid schema. -/
def badSchemaEngine : Engine := fun _ _ =>
  .error (.otherError "SchemaError: invalid schema")

/-! Theorems. -/

/-- Claim C1: validate_policy succeeds exactly when the conformance engine
accepts the policy against the schema (the function is a thin adapter
that re-raises every engine error), and on the example schema requiring a
string-typed name, the policy with name alice succeeds while the policy
with only an age fails with a ValidationError naming the missing required
key. -/
theorem validate_policy_iff_conformance :
    (∀ (engine : Engine) (policy schema : Value),
      validate_policy engine policy schema = .ok () ↔
        engine policy schema = .ok ()) ∧
    validate_policy jsonschemaValidate policyAlice schemaName = .ok () ∧
    validate_policy jsonschemaValidate policyAge schemaName =
      .error (.validationError "missing required property: name") := by
  refine ⟨fun engine policy schema => ?_, by rfl, by rfl⟩
  unfold validate_policy
  cases h : engine policy schema with
  | ok u => cases u; exact Iff.rfl
  | error e => exact Iff.rfl

/-- Claim C2: for an existing file whose parse (in the matching format)
succeeds, load_policy returns the parsed value exactly when that value is
a mapping, and fails with the dictionary-shape ValueError when the root
is not a mapping. -/
theorem load_policy_mapping_root (fs : FS) (p : String) (f : File)
    (v : Value) (hf : fs p = some f) :
    (f.yamlParse = .ok v →
      load_policy fs p "yaml" =
        if v.isDict then .ok v
        else .error (.valueError "Policy file must contain a dictionary.")) ∧
    (f.jsonParse = .ok v →
      load_policy fs p "json" =
        if v.isDict then .ok v
        else .error (.valueError "Policy file must contain a dictionary.")) := by
  constructor <;> intro hp <;> simp [load_policy, parseByFormat, hf, hp]

/-- Witness for claim C2: a concrete mapping-rooted file loads to its
parsed mapping, and a concrete list-rooted file is rejected with the
dictionary-shape error. -/
theorem load_policy_mapping_root_witness :
    load_policy fsGood "policy.yaml" "yaml" = .ok policyAlice ∧
    load_policy (updateFS fsEmpty "list.yaml" (fileBoth (.arr [.num 1])))
        "list.yaml" "yaml" =
      .error (.valueError "Policy file must contain a dictionary.") := by
  constructor
  · exact (((load_policy_mapping_root fsGood "policy.yaml"
      (fileBoth policyAlice) policyAlice rfl).1 rfl).trans (by rfl))
  · exact (((load_policy_mapping_root
      (updateFS fsEmpty "list.yaml" (fileBoth (.arr [.num 1]))) "list.yaml"
      (fileBoth (.arr [.num 1])) (.arr [.num 1]) rfl).1 rfl).trans (by rfl))

/-- Claim C3 (code bug): a JSON parse error reaches main as a
json.JSONDecodeError, which Python catches in the earlier except
ValueError clause because json.JSONDecodeError subclasses ValueError, so
main prints the invalid-input message instead of the JSON-parse message
of the unreachable handler at source line 176; the exit code is still 1.
The run below loads a valid policy, then fails parsing the schema file
as JSON. -/
theorem main_json_parse_error_prints_invalid_input :
    mainRun fsBadSchema jsonschemaValidate argsYaml =
      (.error .jsonDecodeError, [.loadPolicy, .loadSchema]) ∧
    main fsBadSchema jsonschemaValidate argsYaml =
      ("Invalid input provided.  See logs for details.", 1) ∧
    main fsBadSchema jsonschemaValidate argsYaml ≠
      ("Error parsing JSON. See logs for details.", 1) := by
  refine ⟨rfl, rfl, ?_⟩
  intro h
  have h2 := congrArg Prod.fst h
  exact absurd h2 (by decide)

/-- Counterexample to claim C4 as stated: with a path that names no file,
load_policy opens the file before examining the format, so an unknown
format fails with FileNotFoundError, not with the invalid-format
ValueError. -/
theorem load_policy_bad_format_missing_file :
    load_policy fsEmpty "policy.yaml" "xml" = .error .fileNotFound ∧
    load_policy fsEmpty "policy.yaml" "xml" ≠
      .error (.valueError "Invalid format. Must be yaml or json.") := by
  refine ⟨rfl, ?_⟩
  intro h
  exact absurd (Except.error.inj h) (by decide)

/-- Claim C4 as amended: for a path that names an existing file, any
format other than yaml and json makes load_policy fail with the
invalid-format ValueError. -/
theorem load_policy_invalid_format (fs : FS) (p fmt : String) (f : File)
    (hf : fs p = some f) (hy : fmt ≠ "yaml") (hj : fmt ≠ "json") :
    load_policy fs p fmt =
      .error (.valueError "Invalid format. Must be yaml or json.") := by
  simp [load_policy, parseByFormat, hf, hy, hj]

/-- Witness for claim C4 as amended: an existing file with format xml. -/
theorem load_policy_invalid_format_witness :
    load_policy fsGood "policy.yaml" "xml" =
      .error (.valueError "Invalid format. Must be yaml or json.") :=
  load_policy_invalid_format fsGood "policy.yaml" "xml"
    (fileBoth policyAlice) rfl (by decide) (by decide)

/-- Claim C5: main runs load policy, load schema, validate in strict
sequence and short-circuits on the first failure: a failing policy load
leaves the trace at the single load-policy step, a failing schema load
leaves it at the two load steps, and only when both loads succeed is
validation invoked. -/
theorem main_strict_sequence (fs : FS) (engine : Engine) (args : Args) :
    (∀ e, load_policy fs args.policy_file args.format = .error e →
      (mainRun fs engine args).2 = [.loadPolicy]) ∧
    (∀ v e, load_policy fs args.policy_file args.format = .ok v →
      load_schema fs args.schema_file = .error e →
      (mainRun fs engine args).2 = [.loadPolicy, .loadSchema]) ∧
    (∀ v w, load_policy fs args.policy_file args.format = .ok v →
      load_schema fs args.schema_file = .ok w →
      (mainRun fs engine args).2 =
        [.loadPolicy, .loadSchema, .validate]) := by
  refine ⟨fun e he => ?_, fun v e hv he => ?_, fun v w hv hw => ?_⟩
  · simp [mainRun, he]
  · simp [mainRun, hv, he]
  · simp only [mainRun, hv, hw]
    cases validate_policy engine v w <;> rfl

/-- Witness for claim C5: on the empty filesystem the policy load fails,
and the trace stops after the load-policy step. -/
theorem main_strict_sequence_witness :
    (mainRun fsEmpty jsonschemaValidate argsYaml).2 = [.loadPolicy] :=
  (main_strict_sequence fsEmpty jsonschemaValidate argsYaml).1
    .fileNotFound rfl

/-- Claim C6: for an existing file that the YAML parser rejects,
load_policy with format yaml fails with yaml.YAMLError; and since a
document the JSON parser accepts is also accepted by the YAML parser
(JSON is a subset of YAML, the assumption hsub), the same file with
format json fails with json.JSONDecodeError. -/
theorem load_policy_invalid_yaml (fs : FS) (p : String) (f : File)
    (hf : fs p = some f) (hy : f.yamlParse = .error ())
    (hsub : parseOk f.jsonParse = true → parseOk f.yamlParse = true) :
    load_policy fs p "yaml" = .error .yamlError ∧
    load_policy fs p "json" = .error .jsonDecodeError := by
  have hj : f.jsonParse = .error () := by
    cases hjp : f.jsonParse with
    | ok v =>
      have := hsub (by rw [hjp]; rfl)
      rw [hy] at this
      exact absurd this (by decide)
    | error u => cases u; rfl
  constructor <;> simp [load_policy, parseByFormat, hf, hy, hj]

/-- Witness for claim C6: a file both parsers reject. -/
theorem load_policy_invalid_yaml_witness :
    load_policy (updateFS fsEmpty "bad.yaml" fileBroken) "bad.yaml"
        "yaml" = .error .yamlError ∧
    load_policy (updateFS fsEmpty "bad.yaml" fileBroken) "bad.yaml"
        "json" = .error .jsonDecodeError :=
  load_policy_invalid_yaml (updateFS fsEmpty "bad.yaml" fileBroken)
    "bad.yaml" fileBroken rfl rfl (fun h => h)

/-- Claim C7: a successfully loaded policy survives a round trip: writing
the serializer output of the returned mapping to a fresh path and loading
it again with the same format yields the same mapping. -/
theorem load_policy_roundtrip (fs : FS) (p p2 fmt : String) (v : Value)
    (h : load_policy fs p fmt = .ok v) :
    load_policy (updateFS fs p2 (serializeFile v)) p2 fmt = .ok v := by
  have hfmt : fmt = "yaml" ∨ fmt = "json" := by
    by_contra hc
    push_neg at hc
    obtain ⟨h1, h2⟩ := hc
    cases hfs : fs p with
    | none => simp [load_policy, hfs] at h
    | some f => simp [load_policy, parseByFormat, hfs, h1, h2] at h
  have hv : v.isDict = true := by
    cases hfs : fs p with
    | none => simp [load_policy, hfs] at h
    | some f =>
      simp only [load_policy, hfs] at h
      cases hp : parseByFormat f fmt with
      | error e => simp [hp] at h
      | ok w =>
        simp only [hp] at h
        by_cases hw : w.isDict = true
        · rw [if_pos hw] at h
          injection h with h3
          rw [← h3]
          exact hw
        · rw [if_neg hw] at h
          exact Except.noConfusion h
  rcases hfmt with h1 | h1 <;> subst h1 <;>
    simp [load_policy, parseByFormat, updateFS, serializeFile, hv]

/-- Witness for claim C7: the loaded example policy round-trips through
the serializer at a fresh path. -/
theorem load_policy_roundtrip_witness :
    load_policy (updateFS fsGood "copy.yaml" (serializeFile policyAlice))
        "copy.yaml" "yaml" = .ok policyAlice :=
  load_policy_roundtrip fsGood "policy.yaml" "copy.yaml" "yaml"
    policyAlice rfl

/-- Claim C8: load_schema has no root-shape check: a file whose JSON
parse yields a non-mapping value is returned as-is, while load_policy on
the same file with format json rejects it with the dictionary-shape
ValueError. -/
theorem load_schema_no_shape_check (fs : FS) (p : String) (f : File)
    (v : Value) (hf : fs p = some f) (hj : f.jsonParse = .ok v)
    (hnd : v.isDict = false) :
    load_schema fs p = .ok v ∧
    load_policy fs p "json" =
      .error (.valueError "Policy file must contain a dictionary.") := by
  constructor
  · simp [load_schema, hf, hj]
  · simp [load_policy, parseByFormat, hf, hj, hnd]

/-- Witness for claim C8: a list-rooted JSON file passes load_schema and
fails load_policy. -/
theorem load_schema_no_shape_check_witness :
    load_schema (updateFS fsEmpty "list.json" (fileBoth (.arr [.num 1])))
        "list.json" = .ok (.arr [.num 1]) ∧
    load_policy (updateFS fsEmpty "list.json" (fileBoth (.arr [.num 1])))
        "list.json" "json" =
      .error (.valueError "Policy file must contain a dictionary.") :=
  load_schema_no_shape_check
    (updateFS fsEmpty "list.json" (fileBoth (.arr [.num 1])))
    "list.json" (fileBoth (.arr [.num 1])) (.arr [.num 1]) rfl rfl rfl

/-- Claim C9: a file parsing to the null document (an empty YAML file, or
the JSON text null) is not a dict, so load_policy fails with the
ValueError whose source message is "Policy file must contain a
dictionary.", and main therefore prints the invalid-input message and
exits with code 1. -/
theorem load_policy_null_document (fs : FS) (engine : Engine)
    (p s lvl : String) (f : File) (hf : fs p = some f) :
    (f.yamlParse = .ok .null →
      load_policy fs p "yaml" =
        .error (.valueError "Policy file must contain a dictionary.") ∧
      main fs engine ⟨p, s, "yaml", lvl⟩ =
        ("Invalid input provided.  See logs for details.", 1)) ∧
    (f.jsonParse = .ok .null →
      load_policy fs p "json" =
        .error (.valueError "Policy file must contain a dictionary.") ∧
      main fs engine ⟨p, s, "json", lvl⟩ =
        ("Invalid input provided.  See logs for details.", 1)) := by
  constructor <;> intro hp <;>
    refine ⟨by simp [load_policy, parseByFormat, hf, hp, Value.isDict], ?_⟩ <;>
    simp [main, mainRun, load_policy, parseByFormat, hf, hp, Value.isDict,
      renderOutcome]

/-- Witness for claim C9: an empty YAML policy file makes the run print
the invalid-input message with exit code 1. -/
theorem load_policy_null_document_witness :
    load_policy fsEmptyDoc "empty.yaml" "yaml" =
      .error (.valueError "Policy file must contain a dictionary.") ∧
    main fsEmptyDoc jsonschemaValidate
        ⟨"empty.yaml", "schema.json", "yaml", "INFO"⟩ =
      ("Invalid input provided.  See logs for details.", 1) :=
  (load_policy_null_document fsEmptyDoc jsonschemaValidate "empty.yaml"
    "schema.json" "INFO" fileEmptyYaml rfl).1 rfl

/-- Claim C10: when the engine raises an error that is not a
ValidationError (as jsonschema does with SchemaError on an invalid
schema), validate_policy propagates it unchanged past its
ValidationError handler, and main handles it only in the catch-all
branch, printing the unexpected-error message with exit code 1. -/
theorem validate_policy_schema_error (fs : FS) (engine : Engine)
    (args : Args) (policy schema : Value) (msg : String)
    (hp : load_policy fs args.policy_file args.format = .ok policy)
    (hs : load_schema fs args.schema_file = .ok schema)
    (he : engine policy schema = .error (.otherError msg)) :
    validate_policy engine policy schema = .error (.otherError msg) ∧
    main fs engine args =
      ("An unexpected error occurred.  See logs for details.", 1) := by
  have hv : validate_policy engine policy schema =
      .error (.otherError msg) := by
    simp [validate_policy, he]
  exact ⟨hv, by simp [main, mainRun, hp, hs, hv, renderOutcome]⟩

/-- Witness for claim C10: an engine that raises a SchemaError-like
exception drives main into the catch-all branch. -/
theorem validate_policy_schema_error_witness :
    validate_policy badSchemaEngine policyAlice schemaName =
      .error (.otherError "SchemaError: invalid schema") ∧
    main fsGood badSchemaEngine argsYaml =
      ("An unexpected error occurred.  See logs for details.", 1) :=
  validate_policy_schema_error fsGood badSchemaEngine argsYaml
    policyAlice schemaName "SchemaError: invalid schema" rfl rfl rfl

end PolicyLint
